import Mathlib

/-!
Verification of the transcript engine and mock protocol of the `bcs`
repository (an IOP-to-argument / BCS transform library).

The repository's visible sources are `src/ark-bcs/src/iop/verifier.rs`
(the `IOPVerifier`, `IOPVerifierForProver` and `IOPVerifierWithNoOracleRefs`
traits) and `src/src/bcs/tests/mock.rs` (the mock IOP protocol:
`MockTestProver::prove`, `MockTest1Verifier::register_iop_structure`,
`MockTest1Verifier::query_and_decide`).

The transcript drivers (`Transcript`, `SimulationTranscript`,
`MessagesCollection`) are not among the visible sources; they are modelled
here from the specification (sections 4.2, 4.3, 4.4): the prover transcript
driver buffers short and oracle messages, finalizes them into immutable
rounds carrying a `ProverRoundMessageInfo`, and records verifier squeeze
operations; the simulation driver replays shapes and squeezes only.

The cryptographic sponge is abstracted as three deterministic output
streams with position counters: squeezing `n` values returns the next `n`
stream values and advances the counter.  Theorems quantify over all
streams, so they hold for every deterministic sponge behaviour.  The
deterministic test RNG (`test_rng`, which the mock prover and verifier
both replay) is likewise abstracted as a stream `Nat → F` consumed in
draw order.
-/

namespace ArkBCS

/-- Error taxonomy of the specification (section 7): contract violations
surfaced as fatal errors. -/
inductive Error where
  | emptyRound
  | missingRound
  | outOfBounds
  | namespaceNotFound
  | structureMismatch
deriving DecidableEq, Repr

/-- Requested size of one squeezed field element
(`ark_sponge::FieldElementSize`); the mock protocol only uses `Full`. -/
inductive FieldElementSize where
  | full
  | truncated (bitCount : Nat)
deriving DecidableEq, Repr

/-- One verifier message variant (field elements, raw bytes, or bits),
as in `iop::message::VerifierMessage`. -/
inductive VerifierMessage (F : Type) where
  | fieldElements (fe : List F)
  | bytes (b : List Nat)
  | bits (b : List Bool)
deriving DecidableEq, Repr

/-- The kind and size of one sponge squeeze operation, used to compare the
squeeze-call sequences of the prover driver and the simulation driver. -/
inductive SqueezeOp where
  | fieldElements (sizes : List FieldElementSize)
  | bytes (n : Nat)
  | bits (n : Nat)
deriving DecidableEq, Repr

/-- Declared shape of one prover round, with the exact fields of
`iop::message::ProverRoundMessageInfo` as used in `mock.rs`. -/
structure ProverRoundMessageInfo where
  reed_solomon_code_degree_bound : List Nat
  num_message_oracles : Nat
  num_short_messages : Nat
  oracle_length : Nat
  localization_parameter : Nat
deriving DecidableEq, Repr

/-- One buffered or stored oracle message: its values, its localization
(folding) parameter, and its claimed Reed-Solomon degree bound when it was
sent as a low-degree polynomial oracle. -/
structure OracleEntry (F : Type) where
  values : List F
  localization : Nat
  degree_bound : Option Nat
deriving DecidableEq, Repr

/-- One finalized prover round: its declared shape together with the short
messages and oracle messages it owns. -/
structure ProverRound (F : Type) where
  info : ProverRoundMessageInfo
  short_messages : List (List F)
  oracles : List (OracleEntry F)
deriving DecidableEq, Repr

/-- Modelled from the spec: the sponge collaborator (section 6) is a
deterministic source of field elements, bytes and bits; it is modelled as
three output streams with position counters, so each squeeze returns the
next values of the corresponding stream. -/
structure Sponge (F : Type) where
  feStream : Nat → F
  byteStream : Nat → Nat
  bitStream : Nat → Bool
  fePos : Nat
  bytePos : Nat
  bitPos : Nat

/-- A sponge with all position counters at the start of the streams. -/
def Sponge.init {F : Type} (fe : Nat → F) (byteS : Nat → Nat) (bitS : Nat → Bool) : Sponge F :=
  ⟨fe, byteS, bitS, 0, 0, 0⟩

/-- Squeeze `n` field elements: the next `n` values of the field stream. -/
def Sponge.squeezeFieldElements {F : Type} (s : Sponge F) (n : Nat) : List F × Sponge F :=
  ((List.range n).map (fun i => s.feStream (s.fePos + i)), { s with fePos := s.fePos + n })

/-- Squeeze `n` bytes: the next `n` values of the byte stream, reduced mod 256. -/
def Sponge.squeezeBytes {F : Type} (s : Sponge F) (n : Nat) : List Nat × Sponge F :=
  ((List.range n).map (fun i => s.byteStream (s.bytePos + i) % 256), { s with bytePos := s.bytePos + n })

/-- Squeeze `n` bits: the next `n` values of the bit stream. -/
def Sponge.squeezeBits {F : Type} (s : Sponge F) (n : Nat) : List Bool × Sponge F :=
  ((List.range n).map (fun i => s.bitStream (s.bitPos + i)), { s with bitPos := s.bitPos + n })

/-- Modelled from the spec: the prover transcript driver (section 4.3).
It carries the sponge, the configured codeword evaluation domain (used by
`send_univariate_polynomial`), the buffers of the current unfinalized
round, the finalized prover and verifier rounds of the (single) mock
namespace, and the trace of squeeze operations performed so far. -/
structure Transcript (F : Type) where
  sponge : Sponge F
  codewordDomainSize : Nat
  codewordDomainPoint : Nat → F
  currentShorts : List (List F)
  currentOracles : List (OracleEntry F)
  currentVerifierMsgs : List (VerifierMessage F)
  proverRounds : List (ProverRound F)
  verifierRounds : List (List (VerifierMessage F))
  squeezeTrace : List SqueezeOp

/-- A fresh prover transcript over a given sponge and codeword domain. -/
def Transcript.init {F : Type} (s : Sponge F) (dsize : Nat) (dpoint : Nat → F) : Transcript F :=
  ⟨s, dsize, dpoint, [], [], [], [], [], []⟩

/-- Modelled from the spec: buffer a short (fully revealed) message for the
current round (`Transcript::send_message`). -/
def Transcript.send_message {F : Type} (t : Transcript F) (msg : List F) : Transcript F :=
  { t with currentShorts := t.currentShorts ++ [msg] }

/-- Modelled from the spec: buffer an oracle message with an explicit
localization parameter (`Transcript::send_message_oracle_with_localization`). -/
def Transcript.send_message_oracle_with_localization {F : Type} (t : Transcript F)
    (msg : List F) (loc : Nat) : Transcript F :=
  { t with currentOracles := t.currentOracles ++ [⟨msg, loc, none⟩] }

/-- Modelled from the spec: buffer an oracle message without an explicit
localization parameter (`Transcript::send_message_oracle`); the
localization parameter defaults to 0. -/
def Transcript.send_message_oracle {F : Type} (t : Transcript F) (msg : List F) : Transcript F :=
  t.send_message_oracle_with_localization msg 0

/-- Evaluation of a univariate polynomial, given by its coefficient list
(lowest degree first), at a point. -/
def polyEval {F : Type} [CommRing F] (coeffs : List F) (x : F) : F :=
  coeffs.foldr (fun c acc => c + x * acc) 0

/-- Modelled from the spec: `Transcript::send_univariate_polynomial`
evaluates the polynomial over the configured codeword domain and buffers
the evaluations as an oracle message carrying the claimed Reed-Solomon
degree bound (section 4.3, `send_polynomial_oracle`); its localization is
managed by the LDT and defaults to 0. -/
def Transcript.send_univariate_polynomial {F : Type} [CommRing F] (t : Transcript F)
    (degree_bound : Nat) (coeffs : List F) : Transcript F :=
  { t with currentOracles := t.currentOracles ++
      [⟨(List.range t.codewordDomainSize).map (fun i => polyEval coeffs (t.codewordDomainPoint i)),
        0, some degree_bound⟩] }

/-- Modelled from the spec: squeeze verifier field elements from the
sponge; the values are buffered as a verifier message of the current
round and the operation is recorded in the squeeze trace. -/
def Transcript.squeeze_verifier_field_elements {F : Type} (t : Transcript F)
    (sizes : List FieldElementSize) : List F × Transcript F :=
  let (vals, s) := t.sponge.squeezeFieldElements sizes.length
  (vals, { t with sponge := s,
                  currentVerifierMsgs := t.currentVerifierMsgs ++ [.fieldElements vals],
                  squeezeTrace := t.squeezeTrace ++ [.fieldElements sizes] })

/-- Modelled from the spec: squeeze verifier bytes from the sponge. -/
def Transcript.squeeze_verifier_bytes {F : Type} (t : Transcript F) (n : Nat) :
    List Nat × Transcript F :=
  let (vals, s) := t.sponge.squeezeBytes n
  (vals, { t with sponge := s,
                  currentVerifierMsgs := t.currentVerifierMsgs ++ [.bytes vals],
                  squeezeTrace := t.squeezeTrace ++ [.bytes n] })

/-- Modelled from the spec: squeeze verifier bits from the sponge. -/
def Transcript.squeeze_verifier_bits {F : Type} (t : Transcript F) (n : Nat) :
    List Bool × Transcript F :=
  let (vals, s) := t.sponge.squeezeBits n
  (vals, { t with sponge := s,
                  currentVerifierMsgs := t.currentVerifierMsgs ++ [.bits vals],
                  squeezeTrace := t.squeezeTrace ++ [.bits n] })

/-- Modelled from the spec: `Transcript::submit_prover_current_round`
(section 4.3, `finalize_prover_round`) computes the round's
`ProverRoundMessageInfo` from the buffered messages, appends the finalized
round to the message repository, and clears the buffers; it fails with
`EmptyRound` when nothing was buffered.  The declared oracle length and
localization parameter are those shared by the round's oracles (of the
first oracle; 0 when the round has none); degree-bounded polynomial
oracles are declared through the degree-bound list while
`num_message_oracles` counts the plain message oracles. -/
def Transcript.submit_prover_current_round {F : Type} [DecidableEq F] (t : Transcript F) :
    Except Error (Transcript F) :=
  if t.currentShorts = [] ∧ t.currentOracles = [] then .error .emptyRound
  else
    let info : ProverRoundMessageInfo :=
      { reed_solomon_code_degree_bound := t.currentOracles.filterMap (fun o => o.degree_bound)
        num_message_oracles := (t.currentOracles.filter (fun o => o.degree_bound.isNone)).length
        num_short_messages := t.currentShorts.length
        oracle_length := ((t.currentOracles.head?).map (fun o => o.values.length)).getD 0
        localization_parameter := ((t.currentOracles.head?).map (fun o => o.localization)).getD 0 }
    .ok { t with currentShorts := [], currentOracles := [],
                 proverRounds := t.proverRounds ++ [⟨info, t.currentShorts, t.currentOracles⟩] }

/-- Modelled from the spec: `Transcript::submit_verifier_current_round`
appends the buffered verifier messages as one verifier round. -/
def Transcript.submit_verifier_current_round {F : Type} (t : Transcript F) : Transcript F :=
  { t with currentVerifierMsgs := [],
           verifierRounds := t.verifierRounds ++ [t.currentVerifierMsgs] }

/-- Modelled from the spec: the verifier structure-simulation driver
(section 4.4).  It replays the round/challenge structure from declared
shapes only: it records expected `ProverRoundMessageInfo`s, reconstructs
verifier messages by squeezing its own sponge, and records the squeeze
trace, but holds no prover data. -/
structure SimulationTranscript (F : Type) where
  sponge : Sponge F
  expectedInfos : List ProverRoundMessageInfo
  currentVerifierMsgs : List (VerifierMessage F)
  verifierRounds : List (List (VerifierMessage F))
  squeezeTrace : List SqueezeOp

/-- A fresh simulation transcript over a given sponge. -/
def SimulationTranscript.init {F : Type} (s : Sponge F) : SimulationTranscript F :=
  ⟨s, [], [], [], []⟩

/-- Modelled from the spec: `SimulationTranscript::receive_prover_current_round`
records the declared shape of the next prover round (section 4.4,
`receive_prover_round_shape`). -/
def SimulationTranscript.receive_prover_current_round {F : Type} (t : SimulationTranscript F)
    (info : ProverRoundMessageInfo) : SimulationTranscript F :=
  { t with expectedInfos := t.expectedInfos ++ [info] }

/-- Modelled from the spec: simulation-side field-element squeeze, with the
same signature and trace recording as the prover driver's. -/
def SimulationTranscript.squeeze_verifier_field_elements {F : Type} (t : SimulationTranscript F)
    (sizes : List FieldElementSize) : List F × SimulationTranscript F :=
  let (vals, s) := t.sponge.squeezeFieldElements sizes.length
  (vals, { t with sponge := s,
                  currentVerifierMsgs := t.currentVerifierMsgs ++ [.fieldElements vals],
                  squeezeTrace := t.squeezeTrace ++ [.fieldElements sizes] })

/-- Modelled from the spec: simulation-side byte squeeze
(`SimulationTranscript::squeeze_verifier_field_bytes`). -/
def SimulationTranscript.squeeze_verifier_field_bytes {F : Type} (t : SimulationTranscript F)
    (n : Nat) : List Nat × SimulationTranscript F :=
  let (vals, s) := t.sponge.squeezeBytes n
  (vals, { t with sponge := s,
                  currentVerifierMsgs := t.currentVerifierMsgs ++ [.bytes vals],
                  squeezeTrace := t.squeezeTrace ++ [.bytes n] })

/-- Modelled from the spec: simulation-side bit squeeze
(`SimulationTranscript::squeeze_verifier_field_bits`). -/
def SimulationTranscript.squeeze_verifier_field_bits {F : Type} (t : SimulationTranscript F)
    (n : Nat) : List Bool × SimulationTranscript F :=
  let (vals, s) := t.sponge.squeezeBits n
  (vals, { t with sponge := s,
                  currentVerifierMsgs := t.currentVerifierMsgs ++ [.bits vals],
                  squeezeTrace := t.squeezeTrace ++ [.bits n] })

/-- Modelled from the spec: simulation-side verifier round finalization. -/
def SimulationTranscript.submit_verifier_current_round {F : Type} (t : SimulationTranscript F) :
    SimulationTranscript F :=
  { t with currentVerifierMsgs := [],
           verifierRounds := t.verifierRounds ++ [t.currentVerifierMsgs] }

/-- The next `n` values of a deterministic random stream, starting at
position `start`.  Abstracts the draws `F::rand(&mut rng)` from the
deterministic `test_rng()`, which the mock prover and the mock verifier
both replay in the same draw order. -/
def randVec {F : Type} (rng : Nat → F) (start n : Nat) : List F :=
  (List.range n).map (fun i => rng (start + i))

/-- Little-endian packing of a byte list into one field element: the first
field element of `bytes.to_field_elements()` for a field whose capacity
covers the 16 squeezed bytes (as with the 255-bit `Fr` of the tests). -/
def bytesToField {F : Type} [CommRing F] (bytes : List Nat) : F :=
  ((bytes.foldr (fun b acc => b + 256 * acc) 0 : Nat) : F)

/-- Coefficients of the degree-4 polynomial the mock prover commits in its
third round (`mock.rs` lines 91-97). -/
def mockPolyCoeffs {F : Type} [CommRing F] : List F :=
  [(0x12345 : F), (0x23456 : F), (0x34567 : F), (0x45678 : F), (0x56789 : F)]

/-- `MockTestProver::prove` (`mock.rs` lines 36-105), translated call for
call onto the modelled prover transcript driver.  `rng` abstracts
`test_rng()`; the public and private inputs are the unit values the Rust
implementation receives (and ignores). -/
def MockTestProver.prove {F : Type} [CommRing F] [DecidableEq F] (rng : Nat → F)
    (_publicInput _privateInput : Unit) (t : Transcript F) : Except Error (Transcript F) :=
  -- prover send
  let t := t.send_message (randVec rng 0 4)
  let t := t.send_message_oracle_with_localization (randVec rng 4 256) 2
  let t := t.send_message_oracle_with_localization (randVec rng 260 256) 2
  match t.submit_prover_current_round with
  | .error e => .error e
  | .ok t =>
    -- verifier send
    let (vm1, t) := t.squeeze_verifier_field_elements [.full, .full, .full]
    let (vm2, t) := t.squeeze_verifier_bytes 16
    let t := t.submit_verifier_current_round
    -- verifier send2
    let (_, t) := t.squeeze_verifier_bits 19
    let t := t.submit_verifier_current_round
    -- prover send
    let t := t.send_message (vm1.map (fun x => x * x))
    let t := t.send_message_oracle ((List.range 256).map (fun (x : Nat) => (x : F) + bytesToField vm2))
    match t.submit_prover_current_round with
    | .error e => .error e
    | .ok t =>
      -- prover send 2
      let t := t.send_message (randVec rng 516 6)
      let t := t.send_univariate_polynomial 8 mockPolyCoeffs
      t.submit_prover_current_round

/-- `MockTest1Verifier::register_iop_structure` (`mock.rs` lines 118-167),
translated call for call onto the modelled simulation driver.  It is a
function of the verifier parameter alone (here `()`), as the trait
signature admits no other input. -/
def MockTest1Verifier.register_iop_structure {F : Type} (_verifier_parameter : Unit)
    (t : SimulationTranscript F) : SimulationTranscript F :=
  -- prover send
  let info0 : ProverRoundMessageInfo :=
    { reed_solomon_code_degree_bound := []
      num_message_oracles := 2
      num_short_messages := 1
      oracle_length := 256
      localization_parameter := 2 }
  let t := t.receive_prover_current_round info0
  -- verifier send
  let (_, t) := t.squeeze_verifier_field_elements [.full, .full, .full]
  let (_, t) := t.squeeze_verifier_field_bytes 16
  let t := t.submit_verifier_current_round
  -- verifier send2
  let (_, t) := t.squeeze_verifier_field_bits 19
  let t := t.submit_verifier_current_round
  -- prover send
  let info1 : ProverRoundMessageInfo :=
    { reed_solomon_code_degree_bound := []
      num_message_oracles := 1
      num_short_messages := 1
      oracle_length := 256
      localization_parameter := 0 }
  let t := t.receive_prover_current_round info1
  -- prover send2
  let info2 : ProverRoundMessageInfo :=
    { reed_solomon_code_degree_bound := [8]
      num_message_oracles := 0
      num_short_messages := 1
      oracle_length := 128
      localization_parameter := 0 }
  t.receive_prover_current_round info2

/-- Modelled from the spec: the message repository view handed to the
decision phase (`MessagesCollection`, sections 4.2 and 4.5): the finalized
prover and verifier rounds of the mock namespace, plus the bookkeeping log
of issued oracle queries (the repository is passed mutably so queried
positions can be recorded; the round data itself is read-only). -/
structure MessagesCollection (F : Type) where
  proverRounds : List (ProverRound F)
  verifierRounds : List (List (VerifierMessage F))
  queried : List (Nat × List Nat)
deriving DecidableEq, Repr

/-- The repository view of a finalized prover transcript, with an empty
query log. -/
def Transcript.messages {F : Type} (t : Transcript F) : MessagesCollection F :=
  ⟨t.proverRounds, t.verifierRounds, []⟩

/-- Look up one finalized prover round (`MessagesCollection::prover_message`);
`none` models the `MissingRound` contract violation. -/
def MessagesCollection.prover_message {F : Type} (m : MessagesCollection F) (i : Nat) :
    Option (ProverRound F) :=
  m.proverRounds[i]?

/-- Look up one finalized verifier round
(`MessagesCollection::verifier_message`). -/
def MessagesCollection.verifier_message {F : Type} (m : MessagesCollection F) (i : Nat) :
    Option (List (VerifierMessage F)) :=
  m.verifierRounds[i]?

/-- Retrieve one short message of a round
(`RoundView.get_short_message`); `none` models `OutOfBounds`. -/
def ProverRound.get_short_message {F : Type} (r : ProverRound F) (i : Nat) : Option (List F) :=
  r.short_messages[i]?

/-- Modelled from the spec: `RoundView.query(positions)` (section 4.2) —
one result vector per requested position, each containing the value from
every oracle message in the round at that position, in oracle order;
`none` models the `OutOfBounds` failure when a position exceeds an
oracle's length. -/
def ProverRound.query {F : Type} [CommRing F] (r : ProverRound F) (ps : List Nat) :
    Option (List (List F)) :=
  if ps.all (fun p => r.oracles.all (fun o => p < o.values.length)) then
    some (ps.map (fun p => r.oracles.map (fun o => o.values.getD p 0)))
  else
    none

/-- Query round `i` of the repository at the given positions, recording
the attempt in the bookkeeping log (the mutable part of the collection);
the stored round data is only read, never written. -/
def MessagesCollection.query {F : Type} [CommRing F] (m : MessagesCollection F)
    (i : Nat) (ps : List Nat) : Option (List (List F)) × MessagesCollection F :=
  (match m.prover_message i with
   | none => none
   | some r => r.query ps,
   { m with queried := m.queried ++ [(i, ps)] })

/-- Outcome of one host call into decision-phase logic: an explicit output
value, a fatal contract-violation error, or an abort of the host call
(a Rust panic, as raised by a failed `assert_eq!`). -/
inductive Outcome (α : Type) where
  | ok (a : α)
  | err (e : Error)
  | panic
deriving DecidableEq, Repr

/-- `MockTest1Verifier::query_and_decide` (`mock.rs` lines 169-257),
translated check for check: each Rust `assert_eq!` or `panic!` that fails
becomes the `panic` outcome, repository misses and out-of-bounds queries
become `err`, and the accepting exit returns `ok true`.  `rng` abstracts
the verifier's own `test_rng()` replay. -/
def MockTest1Verifier.query_and_decide {F : Type} [CommRing F] [DecidableEq F]
    (rng : Nat → F) (m : MessagesCollection F) : Outcome Bool × MessagesCollection F :=
  -- verify if message is indeed correct
  let pm1_1 := randVec rng 0 4
  let pm1_2 := randVec rng 4 256
  let pm1_3 := randVec rng 260 256
  match m.prover_message 0 with
  | none => (.err .missingRound, m)
  | some r0 =>
  match r0.get_short_message 0 with
  | none => (.err .outOfBounds, m)
  | some s0 =>
  if s0 = pm1_1 then
    let mq0 := m.query 0 [123, 223]
    match mq0.1, mq0.2 with
    | none, m => (.err .outOfBounds, m)
    | some q0, m =>
    if q0 = [[pm1_2.getD 123 0, pm1_3.getD 123 0], [pm1_2.getD 223 0, pm1_3.getD 223 0]] then
      match m.verifier_message 0 with
      | none => (.err .missingRound, m)
      | some vr0 =>
      match vr0[0]? with
      | some (VerifierMessage.fieldElements vm1_1) =>
        if vm1_1.length = 3 then
          match vr0[1]? with
          | some (VerifierMessage.bytes vm1_2) =>
            if vm1_2.length = 16 then
              match m.verifier_message 1 with
              | none => (.err .missingRound, m)
              | some vr1 =>
              match vr1[0]? with
              | some (VerifierMessage.bits b1) =>
                if b1.length = 19 then
                  let pm2_1 := vm1_1.map (fun x => x * x)
                  match m.prover_message 1 with
                  | none => (.err .missingRound, m)
                  | some r1 =>
                  match r1.get_short_message 0 with
                  | none => (.err .outOfBounds, m)
                  | some s1 =>
                  if s1 = pm2_1 then
                    let pm2_2 := (List.range 256).map (fun (x : Nat) => (x : F) + bytesToField vm1_2)
                    let mq1 := m.query 1 [19, 29, 39]
                    match mq1.1, mq1.2 with
                    | none, m => (.err .outOfBounds, m)
                    | some q1, m =>
                    if q1 = [[pm2_2.getD 19 0], [pm2_2.getD 29 0], [pm2_2.getD 39 0]] then
                      let pm3_1 := randVec rng 516 6
                      match m.prover_message 2 with
                      | none => (.err .missingRound, m)
                      | some r2 =>
                      match r2.get_short_message 0 with
                      | none => (.err .outOfBounds, m)
                      | some s2 =>
                      if s2 = pm3_1 then
                        -- just query some points
                        let mq2 := m.query 2 [1, 2]
                        match mq2.1, mq2.2 with
                        | none, m => (.err .outOfBounds, m)
                        | some _, m => (.ok true, m)
                      else (.panic, m)
                    else (.panic, m)
                  else (.panic, m)
                else (.panic, m)
              | some _ => (.panic, m)
              | none => (.panic, m)
            else (.panic, m)
          | some _ => (.panic, m)
          | none => (.panic, m)
        else (.panic, m)
      | some _ => (.panic, m)
      | none => (.panic, m)
    else (.panic, m)
  else (.panic, m)

/-- The associated types one `IOPVerifier` implementation declares
(`verifier.rs` lines 24-41). -/
structure IOPVerifierInstance where
  VerifierOutput : Type
  VerifierParameter : Type
  OracleRefs : Type
  PublicInput : Type

/-- The associated types of `MockTest1Verifier`'s `IOPVerifier`
implementation (`mock.rs` lines 112-116): output `bool`, parameter `()`,
oracle refs `()`, public input `()`. -/
def mockTest1VerifierInstance : IOPVerifierInstance :=
  ⟨Bool, Unit, Unit, Unit⟩

/-- Membership in the auto-implemented trait `IOPVerifierWithNoOracleRefs`
(`verifier.rs` lines 117-127), generated exactly by its blanket impl: any
`IOPVerifier` whose `OracleRefs` type is `()` is an instance.  Protocols
implementing this trait are the ones usable for the top-level BCS
transform. -/
inductive IOPVerifierWithNoOracleRefs : IOPVerifierInstance → Prop where
  | blanket_impl (v : IOPVerifierInstance) (h : v.OracleRefs = Unit) :
      IOPVerifierWithNoOracleRefs v

/-- The associated types one `IOPProver` implementation declares, together
with the verifier-side types its parameter and oracle-refs types project
to.  Modelled from the spec: the projections `<ProverParameter as
ProverParam>::VerifierParameter` and `<RoundOracleRefs as
ProverOracleRefs>::VerifierOracleRefs` used at `verifier.rs` lines 86-87
live in trait definitions outside the visible sources; they are modelled
as fields of the prover instance ("Parameter, oracle-reference, and
public-input types of a paired prover and verifier must match exactly"). -/
structure IOPProverInstance where
  ProverParameter : Type
  RoundOracleRefs : Type
  PublicInput : Type
  PrivateInput : Type
  projVerifierParameter : Type
  projVerifierOracleRefs : Type

/-- The associated types of `MockTestProver`'s `IOPProver` implementation
(`mock.rs` lines 30-34): all four associated types are `()`, and the unit
parameter and oracle-refs types project to the unit verifier-side types. -/
def mockTestProverInstance : IOPProverInstance :=
  ⟨Unit, Unit, Unit, Unit, Unit, Unit⟩

/-- Membership in the auto-implemented trait `IOPVerifierForProver`
(`verifier.rs` lines 80-103), generated exactly by its blanket impl: any
verifier whose parameter, oracle-refs and public-input types equal the
ones the paired prover implementation expects is an instance. -/
inductive IOPVerifierForProver : IOPVerifierInstance → IOPProverInstance → Prop where
  | blanket_impl (v : IOPVerifierInstance) (p : IOPProverInstance)
      (h1 : v.VerifierParameter = p.projVerifierParameter)
      (h2 : v.OracleRefs = p.projVerifierOracleRefs)
      (h3 : v.PublicInput = p.PublicInput) :
      IOPVerifierForProver v p

/-! The honest mock transcript, spelled out.  `MockTestProver.prove_eq`
below proves that the modelled prover driver produces exactly this
transcript (for the codeword domain of size 128 the test configures). -/

/-- The shape `MockTest1Verifier` declares for prover round 0. -/
def mockInfo0 : ProverRoundMessageInfo :=
  { reed_solomon_code_degree_bound := []
    num_message_oracles := 2
    num_short_messages := 1
    oracle_length := 256
    localization_parameter := 2 }

/-- The shape `MockTest1Verifier` declares for prover round 1. -/
def mockInfo1 : ProverRoundMessageInfo :=
  { reed_solomon_code_degree_bound := []
    num_message_oracles := 1
    num_short_messages := 1
    oracle_length := 256
    localization_parameter := 0 }

/-- The shape `MockTest1Verifier` declares for prover round 2. -/
def mockInfo2 : ProverRoundMessageInfo :=
  { reed_solomon_code_degree_bound := [8]
    num_message_oracles := 0
    num_short_messages := 1
    oracle_length := 128
    localization_parameter := 0 }

/-- The three field elements squeezed in verifier round 0. -/
def mockVm1 {F : Type} (feS : Nat → F) : List F :=
  (List.range 3).map (fun i => feS (0 + i))

/-- The 16 bytes squeezed in verifier round 0. -/
def mockVm2 (byS : Nat → Nat) : List Nat :=
  (List.range 16).map (fun i => byS (0 + i) % 256)

/-- The 19 bits squeezed in verifier round 1. -/
def mockBits (biS : Nat → Bool) : List Bool :=
  (List.range 19).map (fun i => biS (0 + i))

/-- Prover round 0 of the honest mock transcript: one short message of 4
random field elements and two random oracle messages of length 256 at
localization parameter 2. -/
def mockRound0 {F : Type} (rng : Nat → F) : ProverRound F :=
  ⟨mockInfo0, [randVec rng 0 4],
   [⟨randVec rng 4 256, 2, none⟩, ⟨randVec rng 260 256, 2, none⟩]⟩

/-- Prover round 1 of the honest mock transcript: the squeezed field
elements squared as one short message, and one oracle message of length
256 derived from the squeezed bytes, at localization parameter 0. -/
def mockRound1 {F : Type} [CommRing F] (feS : Nat → F) (byS : Nat → Nat) : ProverRound F :=
  ⟨mockInfo1, [(mockVm1 feS).map (fun x => x * x)],
   [⟨(List.range 256).map (fun (x : Nat) => (x : F) + bytesToField (mockVm2 byS)), 0, none⟩]⟩

/-- Prover round 2 of the honest mock transcript: one short message of 6
random field elements and the degree-8-bounded polynomial oracle,
evaluated over the 128-point codeword domain. -/
def mockRound2 {F : Type} [CommRing F] (rng : Nat → F) (dp : Nat → F) : ProverRound F :=
  ⟨mockInfo2, [randVec rng 516 6],
   [⟨(List.range 128).map (fun i => polyEval mockPolyCoeffs (dp i)), 0, some 8⟩]⟩

/-- The transcript the honest mock prover finalizes, spelled out: three
prover rounds, two verifier rounds, and the squeeze trace of three
field elements, 16 bytes and 19 bits. -/
def mockHonestTranscript {F : Type} [CommRing F] (rng feS : Nat → F) (byS : Nat → Nat)
    (biS : Nat → Bool) (dp : Nat → F) : Transcript F :=
  { sponge := ⟨feS, byS, biS, 3, 16, 19⟩
    codewordDomainSize := 128
    codewordDomainPoint := dp
    currentShorts := []
    currentOracles := []
    currentVerifierMsgs := []
    proverRounds := [mockRound0 rng, mockRound1 feS byS, mockRound2 rng dp]
    verifierRounds := [[.fieldElements (mockVm1 feS), .bytes (mockVm2 byS)],
                       [.bits (mockBits biS)]]
    squeezeTrace := [.fieldElements [.full, .full, .full], .bytes 16, .bits 19] }

set_option maxRecDepth 8192 in
/-- On any sponge and rng streams, and the 128-point codeword domain the
test configures, the modelled mock prover succeeds and finalizes exactly
`mockHonestTranscript`. -/
theorem MockTestProver.prove_eq {F : Type} [CommRing F] [DecidableEq F]
    (rng feS : Nat → F) (byS : Nat → Nat) (biS : Nat → Bool) (dp : Nat → F) :
    MockTestProver.prove rng () () (Transcript.init (Sponge.init feS byS biS) 128 dp) =
      .ok (mockHonestTranscript rng feS byS biS dp) :=
  rfl

set_option maxRecDepth 8192 in
/-- Claim C2: for all verifier parameters, the sequence of squeeze
operations (kind, size, order) produced by `register_iop_structure` is
independent of the public and the private input — the registration is a
function of the verifier parameter (and its own sponge) alone — and it
equals the squeeze sequence the real prover transcript driver produces
for any input, any rng and any sponge. -/
theorem claim_C2 {F : Type} [CommRing F] [DecidableEq F]
    (rng feS : Nat → F) (byS : Nat → Nat) (biS : Nat → Bool) (dp : Nat → F)
    (publicInput privateInput : Unit) (simFeS : Nat → F) (simByS : Nat → Nat)
    (simBiS : Nat → Bool) (verifierParameter : Unit) :
    ∃ t : Transcript F,
      MockTestProver.prove rng publicInput privateInput
          (Transcript.init (Sponge.init feS byS biS) 128 dp) = .ok t ∧
      t.squeezeTrace =
        (MockTest1Verifier.register_iop_structure verifierParameter
            (SimulationTranscript.init (Sponge.init simFeS simByS simBiS))).squeezeTrace :=
  ⟨mockHonestTranscript rng feS byS biS dp, MockTestProver.prove_eq rng feS byS biS dp, rfl⟩

set_option maxRecDepth 8192 in
/-- Claim C3: in the mock protocol, prover round 0 consists of exactly 1
short message of 4 field elements and 2 oracle messages each of length 256
at localization parameter 2; the verifier squeezes 3 field elements then
16 bytes in its round 0 and 19 bits in its round 1; and the shapes the
verifier's structure registration declares equal the shapes the prover
driver finalizes. -/
theorem claim_C3 {F : Type} [CommRing F] [DecidableEq F]
    (rng feS : Nat → F) (byS : Nat → Nat) (biS : Nat → Bool) (dp : Nat → F)
    (simFeS : Nat → F) (simByS : Nat → Nat) (simBiS : Nat → Bool) :
    ∃ t : Transcript F,
      MockTestProver.prove rng () () (Transcript.init (Sponge.init feS byS biS) 128 dp) =
        .ok t ∧
      (t.proverRounds.getD 0 ⟨mockInfo0, [], []⟩).short_messages.length = 1 ∧
      ((t.proverRounds.getD 0 ⟨mockInfo0, [], []⟩).short_messages.getD 0 []).length = 4 ∧
      (t.proverRounds.getD 0 ⟨mockInfo0, [], []⟩).oracles.length = 2 ∧
      ((t.proverRounds.getD 0 ⟨mockInfo0, [], []⟩).oracles.getD 0 ⟨[], 0, none⟩).values.length
        = 256 ∧
      ((t.proverRounds.getD 0 ⟨mockInfo0, [], []⟩).oracles.getD 1 ⟨[], 0, none⟩).values.length
        = 256 ∧
      ((t.proverRounds.getD 0 ⟨mockInfo0, [], []⟩).oracles.getD 0 ⟨[], 0, none⟩).localization
        = 2 ∧
      ((t.proverRounds.getD 0 ⟨mockInfo0, [], []⟩).oracles.getD 1 ⟨[], 0, none⟩).localization
        = 2 ∧
      t.verifierRounds = [[.fieldElements (mockVm1 feS), .bytes (mockVm2 byS)],
                          [.bits (mockBits biS)]] ∧
      (mockVm1 feS).length = 3 ∧ (mockVm2 byS).length = 16 ∧ (mockBits biS).length = 19 ∧
      t.squeezeTrace = [.fieldElements [.full, .full, .full], .bytes 16, .bits 19] ∧
      t.proverRounds.map (fun r => r.info) =
        (MockTest1Verifier.register_iop_structure ()
            (SimulationTranscript.init (Sponge.init simFeS simByS simBiS))).expectedInfos :=
  ⟨mockHonestTranscript rng feS byS biS dp, MockTestProver.prove_eq rng feS byS biS dp,
   rfl, rfl, rfl, rfl, rfl, rfl, rfl, rfl, rfl, rfl, rfl, rfl, rfl⟩

set_option maxRecDepth 8192 in
/-- Claim C10: `send_message_oracle values` behaves identically to
`send_message_oracle_with_localization values 0`, and in the mock run the
round sent this way (round 1) finalizes with localization parameter 0,
matching the declared shape. -/
theorem claim_C10 {F : Type} [CommRing F] [DecidableEq F]
    (rng feS : Nat → F) (byS : Nat → Nat) (biS : Nat → Bool) (dp : Nat → F)
    (simFeS : Nat → F) (simByS : Nat → Nat) (simBiS : Nat → Bool) :
    (∀ (u : Transcript F) (msg : List F),
        u.send_message_oracle msg = u.send_message_oracle_with_localization msg 0) ∧
    ∃ t : Transcript F,
      MockTestProver.prove rng () () (Transcript.init (Sponge.init feS byS biS) 128 dp) =
        .ok t ∧
      (t.proverRounds.getD 1 ⟨mockInfo0, [], []⟩).info.localization_parameter = 0 ∧
      (MockTest1Verifier.register_iop_structure ()
          (SimulationTranscript.init (Sponge.init simFeS simByS simBiS))).expectedInfos.getD 1
          mockInfo0
        = (t.proverRounds.getD 1 ⟨mockInfo0, [], []⟩).info :=
  ⟨fun _ _ => rfl,
   mockHonestTranscript rng feS byS biS dp, MockTestProver.prove_eq rng feS byS biS dp,
   rfl, rfl⟩

/-- Concrete rng/sponge streams for closed counterexamples and witnesses,
over the field with 97 elements. -/
def cexRng : Nat → ZMod 97 := fun n => (n : ZMod 97)

/-- Concrete byte stream for closed counterexamples and witnesses. -/
def cexByS : Nat → Nat := fun n => n * 3 + 1

/-- Concrete bit stream for closed counterexamples and witnesses. -/
def cexBiS : Nat → Bool := fun n => n % 2 = 0

set_option maxRecDepth 8192 in
/-- Claim C4 counterexample: in the honest mock run, the finalized round 2
sends exactly one committed (oracle) message — the degree-8-bounded
polynomial oracle — but its declared `ProverRoundMessageInfo` has
`num_message_oracles = 0`: the declared committed-message count does not
hold the count of all committed messages sent in the round, so a round
sending one degree-bounded polynomial oracle does not have that oracle
reflected in its declared committed-message count. -/
theorem claim_C4_counterexample :
    (MockTestProver.prove cexRng () ()
        (Transcript.init (Sponge.init cexRng cexByS cexBiS) 128 cexRng) =
      .ok (mockHonestTranscript cexRng cexRng cexByS cexBiS cexRng)) ∧
    ((mockHonestTranscript cexRng cexRng cexByS cexBiS
        cexRng).proverRounds.getD 2 ⟨mockInfo0, [], []⟩).oracles.length = 1 ∧
    ((mockHonestTranscript cexRng cexRng cexByS cexBiS
        cexRng).proverRounds.getD 2 ⟨mockInfo0, [], []⟩).info.num_message_oracles = 0 ∧
    ((mockHonestTranscript cexRng cexRng cexByS cexBiS
          cexRng).proverRounds.getD 2 ⟨mockInfo0, [], []⟩).info.num_message_oracles ≠
      ((mockHonestTranscript cexRng cexRng cexByS cexBiS
          cexRng).proverRounds.getD 2 ⟨mockInfo0, [], []⟩).oracles.length :=
  ⟨MockTestProver.prove_eq cexRng cexRng cexByS cexBiS cexRng, rfl, rfl, by decide⟩

set_option maxRecDepth 8192 in
/-- Claim C4 (amended): for every round the mock prover finalizes, the
declared `ProverRoundMessageInfo` holds the count of short messages, the
count of plain (non-degree-bound) oracle messages in `num_message_oracles`,
the oracle length and localization parameter shared by every oracle
message sent in the round, and the ordered list of claimed Reed-Solomon
degree bounds with one entry per degree-bounded oracle message (empty
otherwise); the count of all committed messages is `num_message_oracles`
plus the length of the degree-bound list, so a degree-bounded polynomial
oracle is reflected in the degree-bound list rather than in
`num_message_oracles`. -/
theorem claim_C4_amended {F : Type} [CommRing F] [DecidableEq F]
    (rng feS : Nat → F) (byS : Nat → Nat) (biS : Nat → Bool) (dp : Nat → F) :
    ∃ t : Transcript F,
      MockTestProver.prove rng () () (Transcript.init (Sponge.init feS byS biS) 128 dp) =
        .ok t ∧
      t.proverRounds.Forall (fun r =>
        r.info.num_short_messages = r.short_messages.length ∧
        r.info.num_message_oracles =
          (r.oracles.filter (fun o => o.degree_bound.isNone)).length ∧
        r.info.reed_solomon_code_degree_bound = r.oracles.filterMap (fun o => o.degree_bound) ∧
        r.info.num_message_oracles + r.info.reed_solomon_code_degree_bound.length =
          r.oracles.length ∧
        r.oracles.Forall (fun o =>
          o.values.length = r.info.oracle_length ∧
          o.localization = r.info.localization_parameter)) :=
  ⟨mockHonestTranscript rng feS byS biS dp, MockTestProver.prove_eq rng feS byS biS dp,
   ⟨rfl, rfl, rfl, rfl, ⟨rfl, rfl⟩, rfl, rfl⟩,
   ⟨rfl, rfl, rfl, rfl, rfl, rfl⟩,
   ⟨rfl, rfl, rfl, rfl, rfl, rfl⟩⟩

/-- A vector of `n` stream draws has length `n`. -/
theorem randVec_length {F : Type} (rng : Nat → F) (s n : Nat) :
    (randVec rng s n).length = n := by simp [randVec]

/-- Three field elements are squeezed in verifier round 0. -/
theorem mockVm1_length {F : Type} (feS : Nat → F) : (mockVm1 feS).length = 3 := by
  simp [mockVm1]

/-- Sixteen bytes are squeezed in verifier round 0. -/
theorem mockVm2_length (byS : Nat → Nat) : (mockVm2 byS).length = 16 := by simp [mockVm2]

/-- Nineteen bits are squeezed in verifier round 1. -/
theorem mockBits_length (biS : Nat → Bool) : (mockBits biS).length = 19 := by simp [mockBits]

set_option maxRecDepth 8192 in
/-- Claim C5: for the mock protocol and an honestly generated transcript —
any rng and sponge streams, with the configured 128-point codeword
domain — the decision phase recomputes the squared squeezed field elements
and the byte-derived oracle values, queries positions 123 and 223 of round
0 and 19, 29, 39 of round 1, and returns the accepting output
`Ok(true)`. -/
theorem claim_C5 {F : Type} [CommRing F] [DecidableEq F]
    (rng feS : Nat → F) (byS : Nat → Nat) (biS : Nat → Bool) (dp : Nat → F) :
    ∃ t : Transcript F,
      MockTestProver.prove rng () () (Transcript.init (Sponge.init feS byS biS) 128 dp) =
        .ok t ∧
      (MockTest1Verifier.query_and_decide rng t.messages).1 = .ok true := by
  refine ⟨_, MockTestProver.prove_eq rng feS byS biS dp, ?_⟩
  simp only [MockTest1Verifier.query_and_decide, Transcript.messages, mockHonestTranscript,
    MessagesCollection.prover_message, MessagesCollection.verifier_message,
    MessagesCollection.query, ProverRound.query, ProverRound.get_short_message,
    mockRound0, mockRound1, mockRound2,
    List.getElem?_cons_zero, List.getElem?_cons_succ,
    List.all_cons, List.all_nil, List.map_cons, List.map_nil, randVec_length,
    List.length_map, List.length_range,
    mockVm1_length, mockVm2_length, mockBits_length, if_true, Bool.and_eq_true,
    decide_eq_true_eq, and_true, true_and, and_self,
    (show (123 : Nat) < 256 by decide), (show (223 : Nat) < 256 by decide),
    (show (19 : Nat) < 256 by decide), (show (29 : Nat) < 256 by decide),
    (show (39 : Nat) < 256 by decide), (show (1 : Nat) < 128 by decide),
    (show (2 : Nat) < 128 by decide)]

/-- Claim C6: for every finalized round and every list of in-bounds
positions, `RoundView.query(positions)` returns exactly one result vector
per requested position, where each result vector contains, in oracle
order, the value of every oracle message of that round at the requested
position. -/
theorem claim_C6 {F : Type} [CommRing F] (r : ProverRound F) (ps : List Nat)
    (h : ∀ p ∈ ps, ∀ o ∈ r.oracles, p < o.values.length) :
    ∃ res, r.query ps = some res ∧ res.length = ps.length ∧
      ∀ i, i < ps.length →
        res.getD i [] = r.oracles.map (fun o => o.values.getD (ps.getD i 0) 0) := by
  have hall : (ps.all (fun p => r.oracles.all (fun o => p < o.values.length))) = true := by
    simp only [List.all_eq_true, decide_eq_true_eq]
    exact h
  refine ⟨ps.map (fun p => r.oracles.map (fun o => o.values.getD p 0)), ?_, by simp, ?_⟩
  · simp [ProverRound.query, hall]
  · intro i hi
    rw [List.getD_eq_getElem _ _ (by simpa using hi), List.getElem_map,
        List.getD_eq_getElem _ _ hi]

set_option maxRecDepth 8192 in
/-- Witness for claim C6: querying round 0 of the honest mock transcript
(over the concrete streams) at the in-bounds positions 5 and 7. -/
theorem claim_C6_witness :
    ∃ res, (mockRound0 cexRng).query [5, 7] = some res ∧
      res.length = ([5, 7] : List Nat).length ∧
      ∀ i, i < ([5, 7] : List Nat).length →
        res.getD i [] = (mockRound0 cexRng).oracles.map
          (fun o => o.values.getD (([5, 7] : List Nat).getD i 0) 0) :=
  claim_C6 (mockRound0 cexRng) [5, 7] (by decide)

set_option maxHeartbeats 4000000 in
/-- Claim C7: the stored data and declared shape of finalized rounds never
change during the decision phase — running the whole mock
`query_and_decide` leaves every stored prover round (messages and
`ProverRoundMessageInfo`) and verifier round equal to what was finalized,
only the query bookkeeping log changes — and repeated queries with the
same arguments return equal results. -/
theorem claim_C7 {F : Type} [CommRing F] [DecidableEq F]
    (rng : Nat → F) (m : MessagesCollection F) :
    ((MockTest1Verifier.query_and_decide rng m).2).proverRounds = m.proverRounds ∧
    ((MockTest1Verifier.query_and_decide rng m).2).verifierRounds = m.verifierRounds ∧
    (∀ i ps, (((m.query i ps).2).query i ps).1 = (m.query i ps).1) := by
  refine ⟨?_, ?_, fun i ps => rfl⟩ <;>
    (simp only [MockTest1Verifier.query_and_decide]
     repeat (any_goals split)
     all_goals rfl)

/-- A malformed proof repository for the mock decision phase: round 0
claims the short message `[1, 1, 1, 1]`, which differs from the rng replay
`[0, 1, 2, 3]` the honest prover would have sent. -/
def badMessages : MessagesCollection (ZMod 97) :=
  ⟨[⟨mockInfo0, [[1, 1, 1, 1]], []⟩], [], []⟩

/-- Counterexample to claim C1: on malformed proof content the mock
`query_and_decide` does not produce a valid rejecting output value — the
failed `assert_eq!` aborts the host call (a panic), so acceptance or
rejection is not represented explicitly in the `VerifierOutput` for every
decision-phase input. -/
theorem claim_C1_counterexample :
    (MockTest1Verifier.query_and_decide cexRng badMessages).1 = .panic := rfl

set_option maxHeartbeats 4000000 in
/-- Claim C1 (amended): the mock decision phase never returns a rejecting
output value: for every input it either returns the explicit accepting
output `Ok(true)`, aborts the host call via a failed assertion (panic) on
malformed proof content, or returns a fatal `Error` for contract
violations (missing rounds, out-of-bounds queries). -/
theorem claim_C1_amended {F : Type} [CommRing F] [DecidableEq F]
    (rng : Nat → F) (m : MessagesCollection F) :
    (MockTest1Verifier.query_and_decide rng m).1 = .ok true ∨
    (MockTest1Verifier.query_and_decide rng m).1 = .panic ∨
    ∃ e, (MockTest1Verifier.query_and_decide rng m).1 = .err e := by
  simp only [MockTest1Verifier.query_and_decide]
  repeat (any_goals split)
  all_goals simp

/-- Claim C8: membership in `IOPVerifierWithNoOracleRefs` — eligibility for
the top-level BCS transform — holds for every `IOPVerifier` whose
`OracleRefs` type is `()` (the blanket impl), for no verifier whose
`OracleRefs` type differs from `()`, and in particular for the mock
verifier. -/
theorem claim_C8 :
    (∀ v : IOPVerifierInstance, v.OracleRefs = Unit → IOPVerifierWithNoOracleRefs v) ∧
    (∀ v : IOPVerifierInstance, IOPVerifierWithNoOracleRefs v → v.OracleRefs = Unit) ∧
    IOPVerifierWithNoOracleRefs mockTest1VerifierInstance :=
  ⟨fun v h => .blanket_impl v h,
   fun _ h => by cases h with | blanket_impl hh => exact hh,
   .blanket_impl _ rfl⟩

/-- The types `Bool` and `Unit` differ (they have different
cardinalities), so a verifier with `OracleRefs = Bool` is non-empty in the
sense of claim C8. -/
theorem boolNeUnit : (Bool ≠ Unit) := by
  intro h
  have hs : Subsingleton Bool := by rw [h]; infer_instance
  exact absurd (@Subsingleton.elim Bool hs true false) (by decide)

/-- Witness for claim C8: the mock verifier (with `OracleRefs = ()`) is
eligible, and a verifier whose `OracleRefs` type is `Bool` is not. -/
theorem claim_C8_witness :
    IOPVerifierWithNoOracleRefs mockTest1VerifierInstance ∧
    ¬ IOPVerifierWithNoOracleRefs ⟨Bool, Unit, Bool, Unit⟩ :=
  ⟨claim_C8.1 mockTest1VerifierInstance rfl,
   fun h => boolNeUnit (claim_C8.2.1 ⟨Bool, Unit, Bool, Unit⟩ h)⟩

/-- Claim C9: a verifier is accepted for composition with a prover
(`IOPVerifierForProver`) precisely when its parameter, oracle-reference
and public-input types equal the ones the prover implementation expects;
the mock verifier/prover pair is accepted. -/
theorem claim_C9 :
    (∀ (v : IOPVerifierInstance) (p : IOPProverInstance),
        IOPVerifierForProver v p ↔
          (v.VerifierParameter = p.projVerifierParameter ∧
           v.OracleRefs = p.projVerifierOracleRefs ∧
           v.PublicInput = p.PublicInput)) ∧
    IOPVerifierForProver mockTest1VerifierInstance mockTestProverInstance :=
  ⟨fun v p =>
    ⟨fun h => by cases h with | blanket_impl h1 h2 h3 => exact ⟨h1, h2, h3⟩,
     fun h => .blanket_impl v p h.1 h.2.1 h.2.2⟩,
   .blanket_impl _ _ rfl rfl rfl⟩

/-- Witness for claim C9: the mock pair is accepted for composition, and a
verifier whose parameter type is `Bool` is rejected against the mock
prover (whose parameter type projects to `()`). -/
theorem claim_C9_witness :
    IOPVerifierForProver mockTest1VerifierInstance mockTestProverInstance ∧
    ¬ IOPVerifierForProver ⟨Bool, Bool, Unit, Unit⟩ mockTestProverInstance :=
  ⟨claim_C9.2,
   fun h => boolNeUnit ((claim_C9.1 ⟨Bool, Bool, Unit, Unit⟩ mockTestProverInstance).mp h).1⟩

end ArkBCS
